import Mathlib

/-!
Verification development for the EchoSphere recording / synchronized-playback
core.  The definitions below are shallow embeddings of the TypeScript source:

* `SyncedTranscript` (features/recording-player/components): the active-index
  reduce and the click-to-seek pass-through.
* `useHlsPlayer` (hooks): volume clamping and the fatal-error handler of the
  HLS event listener.
* `RecordingIndicator` (features/voice-room/components): the
  `useRecordingState` hook's `toggleRecording`/`startRecording`/`stopRecording`.
* `recordings.ts` mock API and the MSW `handlers.ts` mock data, plus the
  post-load rendering decision of `PlaybackView`.
* The Recording Lifecycle Controller state machine, which exists in the
  repository only as a design document, modelled from the spec.
-/

namespace EchoSphere

/-- Message role, from `types/index.ts` (`"user" | "assistant"`). -/
inductive Role where
  | user
  | assistant
deriving DecidableEq, Repr

/-- Transcript message, from `types/index.ts` (`TranscriptMessage`):
`id`, `role`, `content`, `timestampMs` (integer milliseconds from start). -/
structure TranscriptMessage where
  id : String
  role : Role
  content : String
  timestampMs : Int
deriving DecidableEq, Repr

/-- Index-carrying left fold mirroring the JavaScript
`transcript.reduce((activeIdx, msg, idx) => msg.timestampMs <= currentTimeMs ? idx : activeIdx, -1)`
from `SyncedTranscript`: `idx` is the running element index, the accumulator
starts at `-1` (the "none" sentinel). -/
def reduceActiveIdx (currentTimeMs : Int) :
    List TranscriptMessage → Nat → Int → Int
  | [], _, activeIdx => activeIdx
  | msg :: rest, idx, activeIdx =>
      reduceActiveIdx currentTimeMs rest (idx + 1)
        (if msg.timestampMs ≤ currentTimeMs then (idx : Int) else activeIdx)

/-- The `activeMessageIndex` computation of `SyncedTranscript`: the index of
the last message whose `timestampMs ≤ currentTimeMs`, or `-1` ("none"). -/
def activeMessageIndex (transcript : List TranscriptMessage)
    (currentTimeMs : Int) : Int :=
  reduceActiveIdx currentTimeMs transcript 0 (-1)

/-- Seek target of a transcript click: `TranscriptMessageItem.handleClick`
calls `onSeek(message.timestampMs)`, a pure pass-through. -/
def seekTarget (message : TranscriptMessage) : Int :=
  message.timestampMs

/-- Specification-side helper: the greatest index of the list whose
`timestampMs ≤ p`, as an `Option Nat` (`none` when no element qualifies). -/
def lastHit (p : Int) : List TranscriptMessage → Option Nat
  | [] => none
  | msg :: rest =>
      match lastHit p rest with
      | some k => some (k + 1)
      | none => if msg.timestampMs ≤ p then some 0 else none

/-- Interpret an optional index the way the component does: `none` is `-1`. -/
def optIdxToInt : Option Nat → Int
  | none => -1
  | some k => (k : Int)

theorem reduceActiveIdx_eq_lastHit (p : Int) (l : List TranscriptMessage) :
    ∀ (n : Nat) (a : Int),
      reduceActiveIdx p l n a =
        match lastHit p l with
        | none => a
        | some k => ((n + k : Nat) : Int) := by
  induction l with
  | nil => intro n a; rfl
  | cons msg rest ih =>
    intro n a
    show reduceActiveIdx p rest (n + 1)
        (if msg.timestampMs ≤ p then (n : Int) else a) = _
    rw [ih]
    cases h : lastHit p rest with
    | some k =>
      simp only [lastHit, h]
      congr 1
      omega
    | none =>
      simp only [lastHit, h]
      by_cases hle : msg.timestampMs ≤ p
      · simp [hle]
      · simp [hle]

theorem activeMessageIndex_eq_lastHit (l : List TranscriptMessage) (p : Int) :
    activeMessageIndex l p = optIdxToInt (lastHit p l) := by
  unfold activeMessageIndex
  rw [reduceActiveIdx_eq_lastHit]
  cases h : lastHit p l with
  | none => rfl
  | some k => simp [optIdxToInt]

theorem lastHit_characterization (p : Int) (l : List TranscriptMessage) :
    (lastHit p l = none ∧ ∀ m ∈ l, p < m.timestampMs) ∨
    (∃ k, ∃ hk : k < l.length, lastHit p l = some k ∧
      (l.get ⟨k, hk⟩).timestampMs ≤ p ∧
      ∀ j, ∀ hj : j < l.length, k < j → p < (l.get ⟨j, hj⟩).timestampMs) := by
  induction l with
  | nil =>
    left
    exact ⟨rfl, by intro m hm; cases hm⟩
  | cons msg rest ih =>
    rcases ih with ⟨hnone, hall⟩ | ⟨k, hk, hsome, hle, hmax⟩
    · by_cases hle : msg.timestampMs ≤ p
      · right
        refine ⟨0, by simp, ?_, ?_, ?_⟩
        · simp [lastHit, hnone, hle]
        · exact hle
        · intro j hj hj0
          match j, hj with
          | j' + 1, hj =>
            simp only [List.length_cons] at hj
            exact hall _ (List.get_mem rest j' (by omega))
      · left
        constructor
        · simp [lastHit, hnone, hle]
        · intro m hm
          rcases List.mem_cons.mp hm with rfl | hm
          · omega
          · exact hall m hm
    · right
      refine ⟨k + 1, by simpa using Nat.succ_lt_succ hk, ?_, ?_, ?_⟩
      · simp [lastHit, hsome]
      · simpa using hle
      · intro j hj hkj
        match j, hj with
        | j' + 1, hj =>
          simp only [List.length_cons] at hj
          exact hmax j' (by omega) (by omega)

theorem optIdxToInt_ge_neg_one (o : Option Nat) : -1 ≤ optIdxToInt o := by
  cases o with
  | none => simp [optIdxToInt]
  | some k => simp [optIdxToInt]; omega

theorem lastHit_mono (l : List TranscriptMessage) {p1 p2 : Int} (h : p1 ≤ p2) :
    optIdxToInt (lastHit p1 l) ≤ optIdxToInt (lastHit p2 l) := by
  induction l with
  | nil => simp [lastHit]
  | cons msg rest ih =>
    cases h1 : lastHit p1 rest with
    | some k =>
      rw [h1] at ih
      cases h2 : lastHit p2 rest with
      | none =>
        rw [h2] at ih
        simp [optIdxToInt] at ih
        omega
      | some kk =>
        rw [h2] at ih
        simp only [optIdxToInt, Int.ofNat_eq_coe, Nat.cast_le] at ih
        simp only [lastHit, h1, h2, optIdxToInt]
        omega
    | none =>
      by_cases hm1 : msg.timestampMs ≤ p1
      · have hm2 : msg.timestampMs ≤ p2 := le_trans hm1 h
        cases h2 : lastHit p2 rest with
        | none => simp [lastHit, h1, h2, hm1, hm2, optIdxToInt]
        | some kk =>
          simp only [lastHit, h1, h2, hm1, if_true, optIdxToInt]
          omega
      · have : lastHit p1 (msg :: rest) = none := by
          simp [lastHit, h1, hm1]
        rw [this]
        exact optIdxToInt_ge_neg_one _

theorem lastHit_of_getLast (p : Int) (l : List TranscriptMessage) :
    ∀ m, l.getLast? = some m → m.timestampMs ≤ p →
      lastHit p l = some (l.length - 1) := by
  induction l with
  | nil => intro m hm; simp at hm
  | cons msg rest ih =>
    intro m hm hp
    cases rest with
    | nil =>
      simp only [List.getLast?_singleton, Option.some.injEq] at hm
      subst hm
      simp [lastHit, hp]
    | cons m2 r2 =>
      rw [List.getLast?_cons_cons] at hm
      have hrec := ih m hm hp
      have h1 : lastHit p (msg :: m2 :: r2) =
          some ((m2 :: r2).length - 1 + 1) := by
        unfold lastHit
        rw [hrec]
      rw [h1]
      simp only [List.length_cons]
      rfl

/-- Sortedness of the transcript by `timestampMs`, non-strict: the data-model
invariant of the spec (non-decreasing timestamps, ties allowed). -/
def SortedByTimestamp (l : List TranscriptMessage) : Prop :=
  l.Pairwise (fun a b => a.timestampMs ≤ b.timestampMs)

/-- Strict sortedness of the transcript by `timestampMs`: no two entries share
a timestamp. -/
def StrictlySortedByTimestamp (l : List TranscriptMessage) : Prop :=
  l.Pairwise (fun a b => a.timestampMs < b.timestampMs)

instance (l : List TranscriptMessage) : Decidable (SortedByTimestamp l) :=
  List.instDecidablePairwise l

instance (l : List TranscriptMessage) : Decidable (StrictlySortedByTimestamp l) :=
  List.instDecidablePairwise l

theorem sorted_all_gt_of_head_gt (T : List TranscriptMessage)
    (hs : SortedByTimestamp T) (hne : T ≠ []) (p : Int)
    (hlt : p < (T.head hne).timestampMs) :
    ∀ m ∈ T, p < m.timestampMs := by
  cases T with
  | nil => exact absurd rfl hne
  | cons h t =>
    intro m hm
    rcases List.mem_cons.mp hm with rfl | hm
    · exact hlt
    · have := (List.pairwise_cons.mp hs).1 m hm
      simp only [List.head_cons] at hlt
      omega

/-- C1: on a transcript sorted by `timestampMs`, the `SyncedTranscript`
active-index computation returns `-1` ("none") exactly for the empty
transcript or a position before the first timestamp, and otherwise the index
`k` of the last message whose `timestampMs ≤ p` (that is, `T[k].timestampMs ≤ p`
and every later message has a timestamp strictly above `p`). -/
theorem activeIndex_correct (T : List TranscriptMessage) (p : Int)
    (hs : SortedByTimestamp T) :
    (T = [] → activeMessageIndex T p = -1)
    ∧ (∀ hne : T ≠ [], p < (T.head hne).timestampMs →
        activeMessageIndex T p = -1)
    ∧ (∀ hne : T ≠ [], (T.head hne).timestampMs ≤ p →
        ∃ k, ∃ hk : k < T.length, activeMessageIndex T p = (k : Int)
          ∧ (T.get ⟨k, hk⟩).timestampMs ≤ p
          ∧ ∀ j, ∀ hj : j < T.length, k < j →
              p < (T.get ⟨j, hj⟩).timestampMs) := by
  refine ⟨?_, ?_, ?_⟩
  · rintro rfl; rfl
  · intro hne hlt
    have hall := sorted_all_gt_of_head_gt T hs hne p hlt
    rw [activeMessageIndex_eq_lastHit]
    rcases lastHit_characterization p T with ⟨hnone, _⟩ | ⟨k, hk, _, hle, _⟩
    · rw [hnone]; rfl
    · exact absurd (hall _ (List.get_mem T k hk)) (by omega)
  · intro hne hle
    rw [activeMessageIndex_eq_lastHit]
    rcases lastHit_characterization p T with ⟨_, hall⟩ | ⟨k, hk, hsome, hkle, hmax⟩
    · exact absurd (hall _ (List.head_mem hne)) (by omega)
    · exact ⟨k, hk, by rw [hsome]; rfl, hkle, hmax⟩

/-- Concrete two-message transcript used to instantiate the sorted-transcript
theorems. -/
def sampleTranscript : List TranscriptMessage :=
  [⟨"1", Role.user, "hello", 0⟩, ⟨"2", Role.assistant, "hi", 2000⟩]

/-- Witness for C1 at a concrete sorted transcript and position. -/
theorem activeIndex_correct_witness :
    SortedByTimestamp sampleTranscript ∧
    ((sampleTranscript = [] → activeMessageIndex sampleTranscript 1000 = -1)
    ∧ (∀ hne : sampleTranscript ≠ [],
        1000 < (sampleTranscript.head hne).timestampMs →
        activeMessageIndex sampleTranscript 1000 = -1)
    ∧ (∀ hne : sampleTranscript ≠ [],
        (sampleTranscript.head hne).timestampMs ≤ 1000 →
        ∃ k, ∃ hk : k < sampleTranscript.length,
          activeMessageIndex sampleTranscript 1000 = (k : Int)
          ∧ (sampleTranscript.get ⟨k, hk⟩).timestampMs ≤ 1000
          ∧ ∀ j, ∀ hj : j < sampleTranscript.length, k < j →
              1000 < (sampleTranscript.get ⟨j, hj⟩).timestampMs)) :=
  ⟨by decide, activeIndex_correct sampleTranscript 1000 (by decide)⟩

/-- C5: for a sorted transcript the active index is monotonically
non-decreasing in the playback position (with `-1` as "none", below every
index). -/
theorem activeIndex_monotone (T : List TranscriptMessage)
    (hs : SortedByTimestamp T) (p1 p2 : Int) (h : p1 ≤ p2) :
    activeMessageIndex T p1 ≤ activeMessageIndex T p2 := by
  rw [activeMessageIndex_eq_lastHit, activeMessageIndex_eq_lastHit]
  exact lastHit_mono T h

/-- Witness for C5 at a concrete sorted transcript and pair of positions. -/
theorem activeIndex_monotone_witness :
    SortedByTimestamp sampleTranscript ∧ (1000 : Int) ≤ 3000 ∧
    activeMessageIndex sampleTranscript 1000 ≤
      activeMessageIndex sampleTranscript 3000 :=
  ⟨by decide, by decide,
    activeIndex_monotone sampleTranscript (by decide) 1000 3000 (by decide)⟩

/-- Transcript of spec Scenario 4: timestamps 0, 2000, 5000. -/
def scenario4Transcript : List TranscriptMessage :=
  [⟨"1", Role.user, "a", 0⟩, ⟨"2", Role.assistant, "b", 2000⟩,
   ⟨"3", Role.user, "c", 5000⟩]

/-- C6: for a non-empty transcript and any position at or past the last
message's timestamp the active index is the last index (sticky end of list);
and on the Scenario-4 transcript with timestamps 0/2000/5000, position 3000
yields index 1, position 0 yields index 0, and position 10000 yields index 2. -/
theorem activeIndex_sticky_end (T : List TranscriptMessage) (hne : T ≠ [])
    (p : Int) (hp : (T.getLast hne).timestampMs ≤ p) :
    activeMessageIndex T p = (T.length : Int) - 1
    ∧ activeMessageIndex scenario4Transcript 3000 = 1
    ∧ activeMessageIndex scenario4Transcript 0 = 0
    ∧ activeMessageIndex scenario4Transcript 10000 = 2 := by
  refine ⟨?_, by decide, by decide, by decide⟩
  have hlast : T.getLast? = some (T.getLast hne) :=
    List.getLast?_eq_getLast_of_ne_nil hne
  have hhit := lastHit_of_getLast p T (T.getLast hne) hlast hp
  rw [activeMessageIndex_eq_lastHit, hhit]
  have hpos : 0 < T.length := List.length_pos.mpr hne
  simp only [optIdxToInt]
  omega

/-- Witness for C6 at the Scenario-4 transcript with position 10000. -/
theorem activeIndex_sticky_end_witness :
    (scenario4Transcript.getLast (by decide)).timestampMs ≤ 10000 ∧
    (activeMessageIndex scenario4Transcript 10000 =
        (scenario4Transcript.length : Int) - 1
      ∧ activeMessageIndex scenario4Transcript 3000 = 1
      ∧ activeMessageIndex scenario4Transcript 0 = 0
      ∧ activeMessageIndex scenario4Transcript 10000 = 2) :=
  ⟨by decide,
    activeIndex_sticky_end scenario4Transcript (by decide) 10000 (by decide)⟩

/-- Sorted transcript with a duplicated timestamp: allowed by the data-model
invariant (timestamps are non-decreasing, ties broken by insertion order). -/
def duplicateTimestampTranscript : List TranscriptMessage :=
  [⟨"1", Role.user, "a", 1000⟩, ⟨"2", Role.assistant, "b", 1000⟩]

/-- C3 counterexample: on the sorted transcript with two messages at
timestamp 1000, selecting entry 0 seeks to 1000, but the recomputed active
index is 1, not 0 — the reduce keeps the last index whose timestamp is `≤`
the position, so the round trip fails on duplicated timestamps. -/
theorem seek_roundtrip_cex :
    SortedByTimestamp duplicateTimestampTranscript
    ∧ seekTarget (duplicateTimestampTranscript.get ⟨0, by decide⟩) = 1000
    ∧ activeMessageIndex duplicateTimestampTranscript
        (seekTarget (duplicateTimestampTranscript.get ⟨0, by decide⟩)) = 1
    ∧ (1 : Int) ≠ 0 := by
  refine ⟨by decide, by decide, by decide, by decide⟩

/-- C3 amended: the seek target is `message.timestampMs` unchanged, and on a
transcript with strictly increasing timestamps the round trip
`activeIndex(T, seekTarget(T[i])) = i` holds for every index `i`. -/
theorem seek_roundtrip (T : List TranscriptMessage)
    (hs : StrictlySortedByTimestamp T) (i : Nat) (hi : i < T.length) :
    seekTarget (T.get ⟨i, hi⟩) = (T.get ⟨i, hi⟩).timestampMs
    ∧ activeMessageIndex T (seekTarget (T.get ⟨i, hi⟩)) = (i : Int) := by
  refine ⟨rfl, ?_⟩
  rw [activeMessageIndex_eq_lastHit]
  rcases lastHit_characterization (seekTarget (T.get ⟨i, hi⟩)) T with
    ⟨_, hall⟩ | ⟨k, hk, hsome, hle, hmax⟩
  · have := hall _ (List.get_mem T i hi)
    simp [seekTarget] at this
  · rw [hsome]
    have hki : k = i := by
      rcases lt_trichotomy k i with hlt | heq | hgt
      · have := hmax i hi hlt
        simp [seekTarget] at this
      · exact heq
      · have hgtts := List.pairwise_iff_get.mp hs ⟨i, hi⟩ ⟨k, hk⟩ hgt
        simp only [seekTarget] at hle
        omega
    subst hki
    rfl

/-- Witness for C3's amended round trip on a strictly sorted transcript. -/
theorem seek_roundtrip_witness :
    StrictlySortedByTimestamp sampleTranscript ∧ 1 < sampleTranscript.length ∧
    (seekTarget (sampleTranscript.get ⟨1, by decide⟩) =
        (sampleTranscript.get ⟨1, by decide⟩).timestampMs
      ∧ activeMessageIndex sampleTranscript
          (seekTarget (sampleTranscript.get ⟨1, by decide⟩)) = (1 : Int)) :=
  ⟨by decide, by decide, seek_roundtrip sampleTranscript (by decide) 1 (by decide)⟩

/-- Recording status enum from `types/index.ts`:
`"starting" | "active" | "processing" | "completed" | "failed"`. -/
inductive RecordingStatus where
  | starting
  | active
  | processing
  | completed
  | failed
deriving DecidableEq, Repr, Fintype

/-- Modelled from the spec: the Recording Lifecycle Controller's gateway-event
kinds (`started`, controller-initiated `stop requested`, `ended`, `failed`).
The controller itself exists in the repository only as a design document
(implementation plan and SQL schema), not as source code under `src/`. -/
inductive GatewayEventKind where
  | started
  | stopRequested
  | ended
  | failed
deriving DecidableEq, Repr, Fintype

/-- Modelled from the spec: the pure transition function
`(state, event) → state` of the Recording Lifecycle Controller (spec §4.1).
`started` while STARTING → ACTIVE; stop requested while ACTIVE → PROCESSING;
`ended` while PROCESSING → COMPLETED; `failed` from any non-terminal state
→ FAILED; any other pair is rejected without mutating state. -/
def recordingTransition (s : RecordingStatus) (e : GatewayEventKind) :
    RecordingStatus :=
  match s, e with
  | .starting, .started => .active
  | .active, .stopRequested => .processing
  | .processing, .ended => .completed
  | .starting, .failed => .failed
  | .active, .failed => .failed
  | .processing, .failed => .failed
  | s, _ => s

/-- Terminal Recording states per the spec: COMPLETED and FAILED. -/
def isTerminalStatus : RecordingStatus → Bool
  | .completed => true
  | .failed => true
  | _ => false

/-- Run of the Recording state machine over a sequence of events. -/
def runRecording (s : RecordingStatus) (events : List GatewayEventKind) :
    RecordingStatus :=
  events.foldl recordingTransition s

/-- C2: COMPLETED and FAILED are the only terminal Recording states.  Every
event applied to a terminal state is a no-op, a whole event sequence from a
terminal state leaves it unchanged (so a run that reaches a terminal state
stays in that exact state, and in particular never reaches two different
terminal states), and every non-terminal state has an outgoing transition. -/
theorem recording_terminal_states :
    (∀ s e, isTerminalStatus s = true → recordingTransition s e = s)
    ∧ (∀ s events, isTerminalStatus s = true → runRecording s events = s)
    ∧ (∀ s, isTerminalStatus s = false → ∃ e, recordingTransition s e ≠ s)
    ∧ (∀ s events1 events2,
        isTerminalStatus (runRecording s events1) = true →
        runRecording s (events1 ++ events2) = runRecording s events1) := by
  have hstep : ∀ s e, isTerminalStatus s = true → recordingTransition s e = s := by
    decide
  have hrun : ∀ s events, isTerminalStatus s = true → runRecording s events = s := by
    intro s events
    induction events generalizing s with
    | nil => intro _; rfl
    | cons e rest ih =>
      intro hterm
      show runRecording (recordingTransition s e) rest = s
      rw [hstep s e hterm]
      exact ih s hterm
  refine ⟨hstep, hrun, by decide, ?_⟩
  intro s events1 events2 hterm
  show List.foldl recordingTransition s (events1 ++ events2) = _
  rw [List.foldl_append]
  exact hrun _ events2 hterm

/-- Witness for C2 at concrete terminal states and event sequences. -/
theorem recording_terminal_states_witness :
    isTerminalStatus RecordingStatus.completed = true
    ∧ recordingTransition RecordingStatus.completed GatewayEventKind.started =
        RecordingStatus.completed
    ∧ runRecording RecordingStatus.failed
        [GatewayEventKind.started, GatewayEventKind.ended] =
        RecordingStatus.failed :=
  ⟨by decide,
    recording_terminal_states.1 RecordingStatus.completed
      GatewayEventKind.started (by decide),
    recording_terminal_states.2.1 RecordingStatus.failed
      [GatewayEventKind.started, GatewayEventKind.ended] (by decide)⟩

/-- UI recording state of the voice room, from `RecordingIndicator.tsx`:
`"idle" | "starting" | "recording" | "stopping" | "stopped" | "error"`. -/
inductive UiRecordingState where
  | idle
  | starting
  | recording
  | stopping
  | stopped
  | error
deriving DecidableEq, Repr, Fintype

/-- Immediate state effect of `startRecording` in `useRecordingState`: it
unconditionally sets the state to `"starting"` (the delayed
`setTimeout`-driven move to `"recording"` is outside this synchronous step). -/
def startRecording (_ : UiRecordingState) : UiRecordingState :=
  .starting

/-- Immediate state effect of `stopRecording` in `useRecordingState`: it
unconditionally sets the state to `"stopping"`. -/
def stopRecording (_ : UiRecordingState) : UiRecordingState :=
  .stopping

/-- The `toggleRecording` dispatch of `useRecordingState`: stop while
`"recording"`, start from `"idle"` or `"stopped"`, otherwise do nothing. -/
def toggleRecording (state : UiRecordingState) : UiRecordingState :=
  if state = .recording then stopRecording state
  else if state = .idle ∨ state = .stopped then startRecording state
  else state

/-- C10: `toggleRecording` is a no-op in the `"starting"`, `"stopping"` and
`"error"` states; it initiates a start (state becomes `"starting"`) exactly
from `"idle"` and `"stopped"`, initiates a stop (state becomes `"stopping"`)
exactly from `"recording"`, and leaves every other state unchanged. -/
theorem toggleRecording_spec :
    (∀ s : UiRecordingState,
      s = .starting ∨ s = .stopping ∨ s = .error → toggleRecording s = s)
    ∧ toggleRecording .idle = .starting
    ∧ toggleRecording .stopped = .starting
    ∧ toggleRecording .recording = .stopping
    ∧ (∀ s : UiRecordingState,
        s ≠ .idle → s ≠ .stopped → s ≠ .recording → toggleRecording s = s) := by
  refine ⟨by decide, by decide, by decide, by decide, by decide⟩

/-- Witness for C10's no-op conjunct at the `"error"` state. -/
theorem toggleRecording_spec_witness :
    toggleRecording UiRecordingState.error = UiRecordingState.error :=
  toggleRecording_spec.1 UiRecordingState.error (Or.inr (Or.inr rfl))

/-- Volume clamp of `useHlsPlayer.setVolume`:
`video.volume = Math.max(0, Math.min(1, volume))`. -/
def setVolume (volume : ℚ) : ℚ :=
  max 0 (min 1 volume)

/-- C9: `setVolume` assigns exactly `max(0, min(1, v))`, which always lies in
the interval `[0, 1]`, even for requested values outside that range. -/
theorem setVolume_clamps (v : ℚ) :
    setVolume v = max 0 (min 1 v) ∧ 0 ≤ setVolume v ∧ setVolume v ≤ 1 := by
  refine ⟨rfl, le_max_left 0 _, ?_⟩
  unfold setVolume
  rcases le_total 1 v with h | h
  · simp [min_eq_left h]
  · rcases le_total 0 v with h0 | h0
    · simp [min_eq_right h, h0, h]
    · simp [min_eq_right (le_trans h0 zero_le_one)]
      exact h

/-- Error classes of the HLS.js `ERROR` event as the hook's switch sees them:
`Hls.ErrorTypes.NETWORK_ERROR`, `Hls.ErrorTypes.MEDIA_ERROR`, and everything
else (the `default` branch). -/
inductive HlsErrorType where
  | networkError
  | mediaError
  | otherError
deriving DecidableEq, Repr

/-- String form of the error type used in the constructed `Error` message. -/
def hlsErrorTypeName : HlsErrorType → String
  | .networkError => "networkError"
  | .mediaError => "mediaError"
  | .otherError => "otherError"

/-- Payload of the HLS.js `ERROR` event, as consumed by `useHlsPlayer`:
`data.fatal`, `data.type` and `data.details`. -/
structure HlsErrorData where
  fatal : Bool
  type : HlsErrorType
  details : String
deriving DecidableEq, Repr

/-- Player state of `useHlsPlayer` (`HlsPlayerState`): loading/ready/playing
flags, position and duration in seconds, and the surfaced error message
(`null` when none). -/
structure HlsPlayerState where
  isLoading : Bool
  isReady : Bool
  isPlaying : Bool
  currentTime : ℚ
  duration : ℚ
  error : Option String
deriving DecidableEq, Repr

/-- Initial player state of `useHlsPlayer` (the `useState` initializer). -/
def initialHlsPlayerState : HlsPlayerState :=
  { isLoading := false, isReady := false, isPlaying := false,
    currentTime := 0, duration := 0, error := none }

/-- Message of the `Error` the hook constructs on a fatal event:
"HLS Error: " + data.type + " - " + data.details. -/
def hlsErrorMessage (d : HlsErrorData) : String :=
  "HLS Error: " ++ hlsErrorTypeName d.type ++ " - " ++ d.details

/-- Recovery command the hook issues to the HLS.js instance. -/
inductive HlsRecoveryAction where
  | startLoad
  | recoverMediaError
  | destroy
  | noAction
deriving DecidableEq, Repr

/-- The `Hls.Events.ERROR` listener of `useHlsPlayer`: on a fatal event it
first stores the constructed error in the state (`setState` with
`isLoading: false` and the error), then switches on the error type —
`startLoad()` for a network error, `recoverMediaError()` for a media error,
`destroy()` otherwise.  Non-fatal events are ignored. -/
def handleHlsError (s : HlsPlayerState) (d : HlsErrorData) :
    HlsPlayerState × HlsRecoveryAction :=
  if d.fatal then
    ({ s with isLoading := false, error := some (hlsErrorMessage d) },
      match d.type with
      | .networkError => .startLoad
      | .mediaError => .recoverMediaError
      | .otherError => .destroy)
  else (s, .noAction)

/-- A concrete fatal network error (a failed fragment load). -/
def fatalNetworkError : HlsErrorData :=
  { fatal := true, type := HlsErrorType.networkError,
    details := "fragLoadError" }

/-- C4 counterexample: on a fatal network error — a recoverable class — the
listener does issue the in-place recovery (`startLoad`), but it also stores
the error in the player state at the same moment, before the recovery has a
chance to succeed or fail; the state's error is rendered by `VideoPlayer` as
the error overlay and forwarded through `onError`, so the error IS surfaced
to the UI even though recovery was attempted, contradicting the claim that no
error is surfaced unless recovery itself fails. -/
theorem hls_recoverable_error_surfaced :
    (handleHlsError initialHlsPlayerState fatalNetworkError).2 =
      HlsRecoveryAction.startLoad
    ∧ initialHlsPlayerState.error = none
    ∧ (handleHlsError initialHlsPlayerState fatalNetworkError).1.error =
        some "HLS Error: networkError - fragLoadError" :=
  ⟨rfl, rfl, rfl⟩

/-- C4 amended: on a fatal error the listener attempts the in-place recovery
for the recoverable classes — `startLoad` for a network error,
`recoverMediaError` for a media error — and destroys the player only for the
other fatal classes; but for every fatal error, recoverable or not, it
immediately stores the error in the player state (surfacing it to the UI),
and clears the loading flag.  Recovery is not bounded by any attempt counter. -/
theorem hls_fatal_error_handling (s : HlsPlayerState) (d : HlsErrorData)
    (hf : d.fatal = true) :
    ((d.type = HlsErrorType.networkError →
        (handleHlsError s d).2 = HlsRecoveryAction.startLoad)
      ∧ (d.type = HlsErrorType.mediaError →
        (handleHlsError s d).2 = HlsRecoveryAction.recoverMediaError)
      ∧ (d.type = HlsErrorType.otherError →
        (handleHlsError s d).2 = HlsRecoveryAction.destroy))
    ∧ (handleHlsError s d).1.error = some (hlsErrorMessage d)
    ∧ (handleHlsError s d).1.isLoading = false := by
  unfold handleHlsError
  rw [hf]
  refine ⟨⟨?_, ?_, ?_⟩, rfl, rfl⟩
  all_goals intro ht
  all_goals rw [ht]
  all_goals rfl

/-- A concrete fatal media error (a stalled buffer that could not be decoded
around). -/
def fatalMediaError : HlsErrorData :=
  { fatal := true, type := HlsErrorType.mediaError,
    details := "bufferStalledError" }

/-- Witness for C4's amended theorem at a concrete fatal media error. -/
theorem hls_fatal_error_handling_witness :
    fatalMediaError.fatal = true
    ∧ (((fatalMediaError.type = HlsErrorType.networkError →
        (handleHlsError initialHlsPlayerState fatalMediaError).2 =
          HlsRecoveryAction.startLoad)
      ∧ (fatalMediaError.type = HlsErrorType.mediaError →
        (handleHlsError initialHlsPlayerState fatalMediaError).2 =
          HlsRecoveryAction.recoverMediaError)
      ∧ (fatalMediaError.type = HlsErrorType.otherError →
        (handleHlsError initialHlsPlayerState fatalMediaError).2 =
          HlsRecoveryAction.destroy))
    ∧ (handleHlsError initialHlsPlayerState fatalMediaError).1.error =
        some (hlsErrorMessage fatalMediaError)
    ∧ (handleHlsError initialHlsPlayerState fatalMediaError).1.isLoading =
        false) :=
  ⟨rfl, hls_fatal_error_handling initialHlsPlayerState fatalMediaError rfl⟩

/-- Recording summary from `types/index.ts` (`RecordingSummary`).  The ISO
`createdAt` strings of the mock data are produced from `Date.now()` minus an
offset; they are embedded as epoch milliseconds (`createdAtMs`),
parameterized by the current time. -/
structure RecordingSummary where
  id : String
  sessionId : String
  status : RecordingStatus
  durationSeconds : Option Int
  createdAtMs : Int
  playbackUrl : Option String
deriving DecidableEq, Repr

/-- Recording detail from `types/index.ts` (`RecordingDetail`), dates again
as epoch milliseconds. -/
structure RecordingDetail where
  id : String
  sessionId : String
  status : RecordingStatus
  durationSeconds : Option Int
  fileSizeBytes : Option Int
  createdAtMs : Int
  startedAtMs : Option Int
  endedAtMs : Option Int
  playbackUrl : Option String
  transcript : List TranscriptMessage
deriving DecidableEq, Repr

namespace RecordingsApi

/-- MOCK_TRANSCRIPT of `recording-player/api/recordings.ts`. -/
def MOCK_TRANSCRIPT : List TranscriptMessage :=
  [⟨"1", Role.user, "Hello, can you help me?", 1500⟩,
   ⟨"2", Role.assistant,
     "Of course! I'd be happy to help. What do you need assistance with?",
     4200⟩,
   ⟨"3", Role.user,
     "I'm trying to understand how this recording feature works.", 8500⟩,
   ⟨"4", Role.assistant,
     "The recording feature captures your voice conversation with me in real-time. Once completed, you can replay the session and see the transcript synchronized with the audio.",
     12000⟩,
   ⟨"5", Role.user,
     "That's really useful! Can I skip to specific parts?", 18500⟩,
   ⟨"6", Role.assistant,
     "Yes! You can click on any transcript message to jump to that moment in the recording. The current message is highlighted as the playback progresses.",
     22000⟩]

/-- MOCK_RECORDINGS of `recording-player/api/recordings.ts`, with `now` the
value of `Date.now()` at module evaluation. -/
def MOCK_RECORDINGS (now : Int) : List RecordingSummary :=
  [⟨"rec-001", "sess-001", RecordingStatus.completed, some 180,
     now - 3600000,
     some "https://test-streams.mux.dev/x36xhzz/x36xhzz.m3u8"⟩,
   ⟨"rec-002", "sess-002", RecordingStatus.completed, some 245,
     now - 7200000,
     some "https://test-streams.mux.dev/x36xhzz/x36xhzz.m3u8"⟩,
   ⟨"rec-003", "sess-003", RecordingStatus.processing, none,
     now - 1800000, none⟩,
   ⟨"rec-004", "sess-004", RecordingStatus.active, none,
     now - 600000, none⟩,
   ⟨"rec-005", "sess-005", RecordingStatus.failed, none,
     now - 86400000, none⟩]

/-- Detail construction of the mock branch of `fetchRecordingDetail`:
`fileSizeBytes` is `durationSeconds * 50000` when `durationSeconds` is truthy
(non-null and non-zero), `startedAt` is `createdAt - 5000`, `endedAt` is
`createdAt + durationSeconds*1000` only for a completed recording, and the
transcript is attached only for a completed recording. -/
def mockRecordingDetail (r : RecordingSummary) : RecordingDetail :=
  { id := r.id, sessionId := r.sessionId, status := r.status,
    durationSeconds := r.durationSeconds,
    fileSizeBytes :=
      match r.durationSeconds with
      | some d => if d = 0 then none else some (d * 50000)
      | none => none,
    createdAtMs := r.createdAtMs,
    startedAtMs := some (r.createdAtMs - 5000),
    endedAtMs :=
      if r.status = RecordingStatus.completed then
        some (r.createdAtMs + (r.durationSeconds.getD 0) * 1000)
      else none,
    playbackUrl := r.playbackUrl,
    transcript :=
      if r.status = RecordingStatus.completed then MOCK_TRANSCRIPT else [] }

/-- Mock branch of `fetchRecordingDetail`: look the id up in
MOCK_RECORDINGS; when it is absent, reject with
`Error("Recording not found: " + id)`; otherwise resolve with the derived
detail. -/
def fetchRecordingDetail (now : Int) (id : String) :
    Except String RecordingDetail :=
  match (MOCK_RECORDINGS now).find? (fun r => r.id == id) with
  | some r => Except.ok (mockRecordingDetail r)
  | none => Except.error ("Recording not found: " ++ id)

end RecordingsApi

namespace MswHandlers

/-- MOCK_TRANSCRIPT of `test/mocks/handlers.ts`. -/
def MOCK_TRANSCRIPT : List TranscriptMessage :=
  [⟨"1", Role.user, "Hello, can you help me?", 1500⟩,
   ⟨"2", Role.assistant,
     "Of course! I'd be happy to help. What do you need assistance with?",
     4200⟩,
   ⟨"3", Role.user,
     "I'm trying to understand how this recording feature works.", 8500⟩,
   ⟨"4", Role.assistant,
     "The recording feature captures your voice conversation with me in real-time.",
     12000⟩]

/-- MOCK_RECORDINGS of `test/mocks/handlers.ts`. -/
def MOCK_RECORDINGS (now : Int) : List RecordingSummary :=
  [⟨"rec-001", "sess-12345678", RecordingStatus.completed, some 180,
     now,
     some "https://test-streams.mux.dev/x36xhzz/x36xhzz.m3u8"⟩,
   ⟨"rec-002", "sess-87654321", RecordingStatus.completed, some 245,
     now - 7200000,
     some "https://test-streams.mux.dev/x36xhzz/x36xhzz.m3u8"⟩,
   ⟨"rec-003", "sess-003", RecordingStatus.processing, none,
     now - 1800000, none⟩]

end MswHandlers

/-- C7: in every Recording summary the read side exposes — the five mock
summaries of `recordings.ts` and the three of `handlers.ts` — `playbackUrl`
is non-null exactly when the status is `completed`, and `durationSeconds` is
non-null only for a `completed` recording; in every derived detail,
`fileSizeBytes` is non-null only for a `completed` recording and
`playbackUrl` again non-null exactly when `completed`. -/
theorem readside_completed_invariant (now : Int) :
    (∀ r ∈ RecordingsApi.MOCK_RECORDINGS now,
      (r.playbackUrl.isSome ↔ r.status = RecordingStatus.completed)
      ∧ (r.durationSeconds.isSome → r.status = RecordingStatus.completed))
    ∧ (∀ r ∈ MswHandlers.MOCK_RECORDINGS now,
      (r.playbackUrl.isSome ↔ r.status = RecordingStatus.completed)
      ∧ (r.durationSeconds.isSome → r.status = RecordingStatus.completed))
    ∧ (∀ r ∈ RecordingsApi.MOCK_RECORDINGS now,
      ((RecordingsApi.mockRecordingDetail r).fileSizeBytes.isSome →
        r.status = RecordingStatus.completed)
      ∧ ((RecordingsApi.mockRecordingDetail r).playbackUrl.isSome ↔
        r.status = RecordingStatus.completed)) := by
  refine ⟨?_, ?_, ?_⟩
  · intro r hr
    simp only [RecordingsApi.MOCK_RECORDINGS, List.mem_cons,
      List.not_mem_nil, or_false] at hr
    rcases hr with rfl | rfl | rfl | rfl | rfl <;> simp
  · intro r hr
    simp only [MswHandlers.MOCK_RECORDINGS, List.mem_cons,
      List.not_mem_nil, or_false] at hr
    rcases hr with rfl | rfl | rfl <;> simp
  · intro r hr
    simp only [RecordingsApi.MOCK_RECORDINGS, List.mem_cons,
      List.not_mem_nil, or_false] at hr
    rcases hr with rfl | rfl | rfl | rfl | rfl <;>
      simp [RecordingsApi.mockRecordingDetail]

/-- Witness for C7 at `now = 0` and the first mock recording. -/
theorem readside_completed_invariant_witness :
    (⟨"rec-001", "sess-001", RecordingStatus.completed, some 180,
        0 - 3600000,
        some "https://test-streams.mux.dev/x36xhzz/x36xhzz.m3u8"⟩ :
        RecordingSummary) ∈ RecordingsApi.MOCK_RECORDINGS 0
    ∧ ((⟨"rec-001", "sess-001", RecordingStatus.completed, some 180,
        0 - 3600000,
        some "https://test-streams.mux.dev/x36xhzz/x36xhzz.m3u8"⟩ :
        RecordingSummary).playbackUrl.isSome ↔
      (⟨"rec-001", "sess-001", RecordingStatus.completed, some 180,
        0 - 3600000,
        some "https://test-streams.mux.dev/x36xhzz/x36xhzz.m3u8"⟩ :
        RecordingSummary).status = RecordingStatus.completed) :=
  ⟨by decide,
    ((readside_completed_invariant 0).1 _ (by decide)).1⟩

/-- What `PlaybackView` renders once loading has finished: the error branch
showing `error.message` with the back-navigation affordance, or the playable
layout when the recording is completed with a playback URL, or the
status-dependent unavailable notice. -/
inductive PlaybackRender where
  | errorView (message : String)
  | playable (detail : RecordingDetail)
  | unavailable (detail : RecordingDetail)
deriving DecidableEq, Repr

/-- Post-load rendering decision of `PlaybackView`: a rejected
`fetchRecordingDetail` lands in the `error` state and renders the error view
with the error's message; a resolved one renders the playable layout iff
`status === "completed"` and `playbackUrl` is non-null. -/
def playbackViewAfterLoad (now : Int) (id : String) : PlaybackRender :=
  match RecordingsApi.fetchRecordingDetail now id with
  | Except.error msg => PlaybackRender.errorView msg
  | Except.ok r =>
      if r.status = RecordingStatus.completed ∧ r.playbackUrl.isSome then
        PlaybackRender.playable r
      else
        PlaybackRender.unavailable r

/-- C8: for every id absent from the mock data source,
`fetchRecordingDetail` rejects with the message "Recording not found: "
followed by that id, and `PlaybackView` renders the error view carrying
exactly that message (no crash: the render total function produces the error
branch). -/
theorem fetch_not_found_surfaced (now : Int) (id : String)
    (h : ∀ r ∈ RecordingsApi.MOCK_RECORDINGS now, r.id ≠ id) :
    RecordingsApi.fetchRecordingDetail now id =
      Except.error ("Recording not found: " ++ id)
    ∧ playbackViewAfterLoad now id =
      PlaybackRender.errorView ("Recording not found: " ++ id) := by
  have hfind : (RecordingsApi.MOCK_RECORDINGS now).find?
      (fun r => r.id == id) = none := by
    rw [List.find?_eq_none]
    intro r hr
    simpa using h r hr
  constructor
  · unfold RecordingsApi.fetchRecordingDetail
    rw [hfind]
  · unfold playbackViewAfterLoad RecordingsApi.fetchRecordingDetail
    rw [hfind]

/-- Witness for C8 at `now = 0` and the absent id "rec-404". -/
theorem fetch_not_found_surfaced_witness :
    RecordingsApi.fetchRecordingDetail 0 "rec-404" =
      Except.error ("Recording not found: " ++ "rec-404")
    ∧ playbackViewAfterLoad 0 "rec-404" =
      PlaybackRender.errorView ("Recording not found: " ++ "rec-404") :=
  fetch_not_found_surfaced 0 "rec-404" (by decide)

end EchoSphere
